import Mathlib

/-
Verification of the task-lifecycle and deadline-notification engine of a
Telegram task bot backed by an SQLite store and a Planka kanban board.

The development is a shallow embedding of the relevant source modules:
  * the SQLite schema (tables `tasks`, `reminders`, `settings`, `users`
    with the CHECK and UNIQUE constraints of the DDL),
  * the tasks repository (getByPlankaId, getUpcomingDeadlines,
    getOverdueTasks, update),
  * the reminder sweep (sendReminders, wasReminderSent, markReminderSent,
    getLastOverdueReminder, markOverdueReminderSent),
  * the status transition engine (updateTaskStatus, validateStatusTransition,
    getListForStatus, autoUpdateStatusOnAssign),
  * the daily digest (sendDailyDigest, getUserSettings).

Timestamps are modelled as integers (epoch milliseconds); SQL datetime
comparisons are modelled by the order on those integers.  Outbound
Telegram messages are modelled as values recorded in a list; a thrown
JS exception is modelled with Except, and the try/catch that wraps each
job body is modelled by stopping the job early while keeping the effects
performed so far.  Fields of the source records that none of the verified
operations read (priority, category, description, timestamps, chat id,
language and so on) are omitted.
-/

namespace TaskBot

/-- Task workflow status, from the TaskStatus enum of the source. -/
inductive TaskStatus where
  | todo
  | in_progress
  | in_review
  | done
deriving DecidableEq, Repr

/-- User role, from the UserRole enum (owner, admin, employee). -/
inductive UserRole where
  | owner
  | admin
  | employee
deriving DecidableEq, Repr

/-- Row of the `users` table (fields the verified code reads). -/
structure User where
  telegramId : Nat
  role : UserRole
deriving DecidableEq, Repr

/-- Row of the `tasks` table (fields the verified code reads).  `id` is the
integer primary key, `plankaCardId` the unique external card id. -/
structure Task where
  id : Nat
  plankaCardId : String
  title : String
  status : TaskStatus
  createdBy : Nat
  assignedTo : Option Nat
  dueDate : Option Int
deriving DecidableEq, Repr

/-- Row of the `reminders` table: composite key (task_id, user_id, type)
with a nullable sent_at. -/
structure ReminderRow where
  taskId : Nat
  userId : Nat
  type : String
  sentAt : Option Int
deriving DecidableEq, Repr

/-- Row of the `settings` table. -/
structure SettingsRow where
  userId : Nat
  digestEnabled : Bool
  digestHour : Nat
  notificationsEnabled : Bool
deriving DecidableEq, Repr

/-- The persistent SQLite database state. -/
structure Db where
  users : List User
  tasks : List Task
  reminders : List ReminderRow
  settings : List SettingsRow
deriving DecidableEq, Repr

/-- The CHECK constraint of the `reminders` table in the schema DDL:
`type TEXT CHECK(type IN ('24h', '6h', '2h')) NOT NULL`. -/
def reminderTypeAllowed (t : String) : Bool :=
  t == "24h" || t == "6h" || t == "2h"

/-- An SQLite statement error; a CHECK violation aborts the statement
leaving the database unchanged, and surfaces as a thrown exception. -/
inductive SqlError where
  | checkViolation
deriving DecidableEq, Repr

/-- tasksRepo.getByPlankaId: SELECT from `tasks` by unique planka_card_id. -/
def getByPlankaId (db : Db) (p : String) : Option Task :=
  db.tasks.find? (fun t => t.plankaCardId == p)

/-- usersRepo.getByTelegramId: SELECT from `users` by unique telegram_id. -/
def getByTelegramId (db : Db) (uid : Nat) : Option User :=
  db.users.find? (fun u => u.telegramId == uid)

/-- usersRepo.getAll(role): SELECT users with the given role. -/
def usersGetAll (db : Db) (role : UserRole) : List User :=
  db.users.filter (fun u => u.role == role)

/-- Hours to milliseconds, as the JS Date arithmetic of the repository. -/
def hoursToMs (h : Nat) : Int :=
  (h : Int) * 3600000

/-- tasksRepo.getUpcomingDeadlines(hoursAhead): tasks whose due_date lies in
[now, now + hoursAhead] and whose status is not done.  Tasks without a
due date never match. -/
def getUpcomingDeadlines (db : Db) (now : Int) (hoursAhead : Nat) : List Task :=
  db.tasks.filter (fun t =>
    match t.dueDate with
    | some d => decide (now ≤ d ∧ d ≤ now + hoursToMs hoursAhead) && !(t.status == .done)
    | none => false)

/-- tasksRepo.getOverdueTasks: tasks whose due_date is strictly before now
and whose status is not done. -/
def getOverdueTasks (db : Db) (now : Int) : List Task :=
  db.tasks.filter (fun t =>
    match t.dueDate with
    | some d => decide (d < now) && !(t.status == .done)
    | none => false)

/-- Whether a reminders row has the given composite key. -/
def reminderKeyMatches (r : ReminderRow) (tid uid : Nat) (ty : String) : Bool :=
  r.taskId == tid && r.userId == uid && r.type == ty

/-- The ON CONFLICT(task_id, user_id, type) DO UPDATE SET sent_at upsert of
markReminderSent: update sent_at of the existing row, else insert. -/
def upsertReminder (rs : List ReminderRow) (tid uid : Nat) (ty : String)
    (now : Int) : List ReminderRow :=
  if rs.any (fun r => reminderKeyMatches r tid uid ty) then
    rs.map (fun r =>
      if reminderKeyMatches r tid uid ty then { r with sentAt := some now } else r)
  else
    rs ++ [⟨tid, uid, ty, some now⟩]

/-- The INSERT OR REPLACE of markOverdueReminderSent: delete any row with
the same composite key, then insert the fresh row. -/
def replaceReminder (rs : List ReminderRow) (tid uid : Nat) (ty : String)
    (now : Int) : List ReminderRow :=
  (rs.filter (fun r => !(reminderKeyMatches r tid uid ty))) ++ [⟨tid, uid, ty, some now⟩]

/-- wasReminderSent(taskId, type): true when some reminders row for the task
resolved through planka_card_id has this window type and a non-null
sent_at.  Note the query does not constrain user_id. -/
def wasReminderSent (db : Db) (p : String) (ty : String) : Bool :=
  match getByPlankaId db p with
  | none => false
  | some t =>
      db.reminders.any (fun r => r.taskId == t.id && r.type == ty && r.sentAt.isSome)

/-- markReminderSent(taskId, type): INSERT ... SELECT t.id, t.created_by, ?,
CURRENT_TIMESTAMP ... ON CONFLICT DO UPDATE.  Only one row, keyed by the
creator, is written.  A type outside the CHECK set of the schema aborts
the statement with a constraint violation. -/
def markReminderSent (db : Db) (p : String) (ty : String) (now : Int) :
    Except SqlError Db :=
  match getByPlankaId db p with
  | none => .ok db
  | some t =>
      if reminderTypeAllowed ty then
        .ok { db with reminders := upsertReminder db.reminders t.id t.createdBy ty now }
      else
        .error .checkViolation

/-- getLastOverdueReminder(taskId): MAX(sent_at) over rows of type overdue
for the task; NULL (none) when there is no such row. -/
def maxOption : List Int → Option Int
  | [] => none
  | x :: xs =>
      match maxOption xs with
      | none => some x
      | some m => some (max x m)

/-- getLastOverdueReminder, see maxOption. -/
def getLastOverdueReminder (db : Db) (p : String) : Option Int :=
  match getByPlankaId db p with
  | none => none
  | some t =>
      maxOption (db.reminders.filterMap (fun r =>
        if r.taskId == t.id && r.type == "overdue" then r.sentAt else none))

/-- markOverdueReminderSent(taskId): INSERT OR REPLACE of a row with type
overdue keyed by the creator.  The type overdue is outside the CHECK set
of the schema, so the statement aborts whenever the task exists. -/
def markOverdueReminderSent (db : Db) (p : String) (now : Int) :
    Except SqlError Db :=
  match getByPlankaId db p with
  | none => .ok db
  | some t =>
      if reminderTypeAllowed "overdue" then
        .ok { db with reminders := replaceReminder db.reminders t.id t.createdBy "overdue" now }
      else
        .error .checkViolation

/-- REMINDER_WINDOWS of the configuration constants, in the key order that
Object.entries yields: FIRST 24 hours, SECOND 6 hours, THIRD 2 hours.
The sweep uses the KEYS of this object as the reminder window type. -/
def REMINDER_WINDOWS : List (String × Nat) :=
  [("FIRST", 24), ("SECOND", 6), ("THIRD", 2)]

/-- An outbound Telegram reminder message, identified by recipient, card
and the window type string used to build it. -/
structure Send where
  userId : Nat
  plankaCardId : String
  type : String
deriving DecidableEq, Repr

/-- Recipient resolution of the sweep: a JS Set seeded with the creator and
then the assignee when present (dedup by value, insertion order). -/
def recipientsOf (t : Task) : List Nat :=
  match t.assignedTo with
  | some a => if a == t.createdBy then [t.createdBy] else [t.createdBy, a]
  | none => [t.createdBy]

/-- sendReminderToUser: looks the user up and sends one message; an unknown
user sends nothing; delivery failures are caught inside, so the caller
always continues. -/
def sendReminderToUser (db : Db) (uid : Nat) (t : Task) (ty : String) : Option Send :=
  match getByTelegramId db uid with
  | none => none
  | some _ => some ⟨uid, t.plankaCardId, ty⟩

/-- sendOverdueReminderToUser, analogous to sendReminderToUser. -/
def sendOverdueReminderToUser (db : Db) (uid : Nat) (t : Task) : Option Send :=
  match getByTelegramId db uid with
  | none => none
  | some _ => some ⟨uid, t.plankaCardId, "overdue"⟩

/-- State threaded through one sweep invocation: the database plus the
messages sent so far. -/
abbrev SweepSt := Db × List Send

/-- Left fold that stops at the first step raising an exception; the error
value carries the state at the moment of the abort, since effects already
performed are not rolled back. -/
def foldAbort {σ α : Type} (f : σ → α → Except σ σ) : σ → List α → Except σ σ
  | st, [] => .ok st
  | st, x :: xs =>
      match f st x with
      | .ok st' => foldAbort f st' xs
      | .error st' => .error st'

/-- Collapse an aborted or completed run to its final state. -/
def runState {σ : Type} : Except σ σ → σ
  | .ok st => st
  | .error st => st

/-- Body of the per-task loop of the window pass of sendReminders: skip done
tasks, skip when wasReminderSent, otherwise send to each recipient and
then markReminderSent; an exception of the mark aborts the whole job. -/
def sweepWindowTask (now : Int) (wkey : String) (st : SweepSt) (t : Task) :
    Except SweepSt SweepSt :=
  if t.status == .done then .ok st
  else if wasReminderSent st.1 t.plankaCardId wkey then .ok st
  else
    let newSends := (recipientsOf t).filterMap (fun uid => sendReminderToUser st.1 uid t wkey)
    match markReminderSent st.1 t.plankaCardId wkey now with
    | .ok db' => .ok (db', st.2 ++ newSends)
    | .error _ => .error (st.1, st.2 ++ newSends)

/-- One window pass of sendReminders: query the upcoming tasks of the
window horizon and process each. -/
def sweepOneWindow (now : Int) (st : SweepSt) (w : String × Nat) :
    Except SweepSt SweepSt :=
  foldAbort (sweepWindowTask now w.1) st (getUpcomingDeadlines st.1 now w.2)

/-- The 24-hour overdue re-notification throttle, in milliseconds. -/
def overdueThrottleMs : Int := 24 * 60 * 60 * 1000

/-- The throttle test of the overdue loop: fire when there is no previous
overdue sent_at or it is more than 24 hours old. -/
def overdueDue (now : Int) (last : Option Int) : Bool :=
  match last with
  | none => true
  | some x => decide (now - x > overdueThrottleMs)

/-- Body of the overdue loop of sendReminders. -/
def sweepOverdueTask (now : Int) (st : SweepSt) (t : Task) :
    Except SweepSt SweepSt :=
  if overdueDue now (getLastOverdueReminder st.1 t.plankaCardId) then
    let newSends := (recipientsOf t).filterMap (fun uid => sendOverdueReminderToUser st.1 uid t)
    match markOverdueReminderSent st.1 t.plankaCardId now with
    | .ok db' => .ok (db', st.2 ++ newSends)
    | .error _ => .error (st.1, st.2 ++ newSends)
  else .ok st

/-- sendReminders: the full sweep.  The window passes run first; an
exception anywhere inside the try block lands in the catch, which only
logs, so the overdue loop is skipped when a window pass aborts. -/
def sendReminders (db : Db) (now : Int) : SweepSt :=
  match foldAbort (sweepOneWindow now) (db, []) REMINDER_WINDOWS with
  | .error st => st
  | .ok st => runState (foldAbort (sweepOverdueTask now) st (getOverdueTasks st.1 now))

/-- Error codes of the AppError taxonomy that the verified operations can
raise (messages and metadata of AppError are not modelled). -/
inductive ErrorCode where
  | NOT_FOUND
  | INVALID_STATUS_TRANSITION
  | PLANKA_ERROR
  | DB_ERROR
deriving DecidableEq, Repr

/-- A Planka board list as returned by getBoardLists. -/
structure PlankaList where
  id : String
  name : String
deriving DecidableEq, Repr

/-- The external board environment for one updateTaskStatus call: the
outcome of getBoardLists and, per (cardId, listId), of updateCard. -/
structure BoardEnv where
  boardLists : Except ErrorCode (List PlankaList)
  cardUpdate : String → String → Except ErrorCode Unit

/-- A call made to the board API, recorded for the frame statements. -/
inductive BoardCall where
  | getLists
  | updateCard (cardId listId : String)
deriving DecidableEq, Repr

/-- The adjacency table of validateStatusTransition. -/
def allowedTransitions : TaskStatus → List TaskStatus
  | .todo => [.in_progress, .done]
  | .in_progress => [.todo, .in_review, .done]
  | .in_review => [.in_progress, .done]
  | .done => [.todo, .in_progress]

/-- The comparison of one board list name against one candidate name of
getListForStatus: lowercase both sides, then a substring test, as in
name.toLowerCase().includes(candidate.toLowerCase()).  Lowercasing is per
character; this matches the JS behaviour on the inputs considered here. -/
def nameMatches (listName candidate : String) : Bool :=
  decide (List.IsInfix (candidate.toList.map Char.toLower)
    (listName.toList.map Char.toLower))

/-- The ranked candidate list names per status of getListForStatus. -/
def statusToListName : TaskStatus → List String
  | .todo => ["todo", "новые", "новая", "backlog", "к выполнению"]
  | .in_progress => ["in progress", "в работе", "doing", "выполняется"]
  | .in_review => ["review", "проверка", "на проверке", "testing"]
  | .done => ["done", "готово", "выполнено", "completed", "finished"]

/-- First list whose lowercased name contains one of the candidate names,
scanning candidates in rank order. -/
def findListByNames (lists : List PlankaList) : List String → Option PlankaList
  | [] => none
  | n :: ns =>
      match lists.find? (fun l => nameMatches l.name n) with
      | some l => some l
      | none => findListByNames lists ns

/-- The positional fallback indices of getListForStatus; done maps to the
last list, which is index -1 on an empty board. -/
def statusToIndex (lists : List PlankaList) : TaskStatus → Int
  | .todo => 0
  | .in_progress => 1
  | .in_review => 2
  | .done => (lists.length : Int) - 1

/-- JS array indexing: out-of-range and negative indices give undefined. -/
def listAt (lists : List PlankaList) (i : Int) : Option PlankaList :=
  if i < 0 then none else lists[i.toNat]?

/-- getListForStatus: name heuristic first, positional fallback second. -/
def getListForStatus (lists : List PlankaList) (status : TaskStatus) :
    Option PlankaList :=
  match findListByNames lists (statusToListName status) with
  | some l => some l
  | none => listAt lists (statusToIndex lists status)

/-- tasksRepo.update restricted to the status field: UPDATE tasks SET
status WHERE planka_card_id; none when zero rows changed. -/
def tasksUpdate (db : Db) (p : String) (s : TaskStatus) : Option (Db × Task) :=
  let tasks' := db.tasks.map (fun t =>
    if t.plankaCardId == p then { t with status := s } else t)
  match tasks'.find? (fun t => t.plankaCardId == p) with
  | none => none
  | some t => some ({ db with tasks := tasks' }, t)

/-- Observable outcome of one updateTaskStatus call: the resulting local
database, the board API calls made, and the returned value or the thrown
error. -/
structure UpdateOutcome where
  db : Db
  calls : List BoardCall
  result : Except ErrorCode (Task × TaskStatus × Nat)

/-- updateTaskStatus(taskId, newStatus, userId).  Order of the source: load
the task (throw NOT_FOUND), same-status no-op, validateStatusTransition,
getBoardLists, getListForStatus (throw PLANKA_ERROR when unresolved),
updateCard, and only then the local status update (throw DB_ERROR when it
changed no row).  The activity comment is log-only in the source and has
no modelled effect. -/
def updateTaskStatus (env : BoardEnv) (db : Db) (taskId : String)
    (newStatus : TaskStatus) (userId : Nat) : UpdateOutcome :=
  match getByPlankaId db taskId with
  | none => ⟨db, [], .error .NOT_FOUND⟩
  | some task =>
      if task.status == newStatus then
        ⟨db, [], .ok (task, task.status, userId)⟩
      else if !((allowedTransitions task.status).contains newStatus) then
        ⟨db, [], .error .INVALID_STATUS_TRANSITION⟩
      else
        match env.boardLists with
        | .error e => ⟨db, [.getLists], .error e⟩
        | .ok lists =>
            match getListForStatus lists newStatus with
            | none => ⟨db, [.getLists], .error .PLANKA_ERROR⟩
            | some targetList =>
                match env.cardUpdate task.plankaCardId targetList.id with
                | .error e =>
                    ⟨db, [.getLists, .updateCard task.plankaCardId targetList.id], .error e⟩
                | .ok _ =>
                    match tasksUpdate db task.plankaCardId newStatus with
                    | none =>
                        ⟨db, [.getLists, .updateCard task.plankaCardId targetList.id],
                          .error .DB_ERROR⟩
                    | some (db', task') =>
                        ⟨db', [.getLists, .updateCard task.plankaCardId targetList.id],
                          .ok (task', task.status, userId)⟩

/-- Observable outcome of autoUpdateStatusOnAssign: resulting database,
board calls, and the returned task (null for an unknown id) or the
propagated error. -/
structure AutoOutcome where
  db : Db
  calls : List BoardCall
  result : Except ErrorCode (Option Task)

/-- autoUpdateStatusOnAssign(taskId, assigneeId): null for an unknown task;
the validated todo to in_progress transition when the task is in todo and
the assignee id is truthy; the task unchanged otherwise. -/
def autoUpdateStatusOnAssign (env : BoardEnv) (db : Db) (taskId : String)
    (assigneeId : Nat) : AutoOutcome :=
  match getByPlankaId db taskId with
  | none => ⟨db, [], .ok none⟩
  | some task =>
      if task.status == .todo && !(assigneeId == 0) then
        let o := updateTaskStatus env db taskId .in_progress assigneeId
        match o.result with
        | .ok (t, _, _) => ⟨o.db, o.calls, .ok (some t)⟩
        | .error e => ⟨o.db, o.calls, .error e⟩
      else
        ⟨db, [], .ok (some task)⟩

/-- Which digest run is firing. -/
inductive DigestKind where
  | morning
  | evening
deriving DecidableEq, Repr

/-- An outbound digest message to one user. -/
structure DigestSend where
  userId : Nat
  kind : DigestKind
deriving DecidableEq, Repr

/-- The settings shape returned by getUserSettings. -/
structure UserSettings where
  digestEnabled : Bool
  digestHour : Nat
  notificationsEnabled : Bool
deriving DecidableEq, Repr

/-- getUserSettings(userId): the settings row of the user, or the defaults
digestEnabled = true, digestHour = 9, notificationsEnabled = true when no
row exists. -/
def getUserSettings (db : Db) (uid : Nat) : UserSettings :=
  match db.settings.find? (fun s => s.userId == uid) with
  | none => ⟨true, 9, true⟩
  | some s => ⟨s.digestEnabled, s.digestHour, s.notificationsEnabled⟩

/-- sendDailyDigest(type): iterate owners then admins; skip a user whose
settings disable the digest; for the morning run also skip unless the
digest hour is 9; then send one summary message (the per-user send helper
returns without sending when the user row cannot be loaded). -/
def sendDailyDigest (kind : DigestKind) (db : Db) : List DigestSend :=
  (usersGetAll db .owner ++ usersGetAll db .admin).filterMap (fun u =>
    if !(getUserSettings db u.telegramId).digestEnabled then none
    else if kind == .morning && !((getUserSettings db u.telegramId).digestHour == 9) then none
    else
      match getByTelegramId db u.telegramId with
      | none => none
      | some _ => some ⟨u.telegramId, kind⟩)

/-- Invariant preservation through foldAbort: a property of the threaded
state that every step preserves, whether it returns or raises, holds of
the final state of the loop. -/
theorem foldAbort_inv {σ α : Type} (Q : σ → Prop) (f : σ → α → Except σ σ)
    (xs : List α) (st : σ)
    (hf : ∀ s x, x ∈ xs → Q s → Q (runState (f s x)))
    (hst : Q st) : Q (runState (foldAbort f st xs)) := by
  induction xs generalizing st with
  | nil => simpa [foldAbort, runState] using hst
  | cons x xs ih =>
      have hx : Q (runState (f st x)) := hf st x (by simp) hst
      cases hfx : f st x with
      | ok st' =>
          rw [foldAbort, hfx]
          exact ih st' (fun s y hy => hf s y (by simp [hy])) (by simpa [hfx, runState] using hx)
      | error st' =>
          rw [foldAbort, hfx]
          simpa [hfx, runState] using hx

/-- A reminder type outside the CHECK set is never recorded: the statement
either finds no task (and writes nothing) or aborts. -/
theorem markReminderSent_notAllowed (db : Db) (p ty : String) (now : Int)
    (h : reminderTypeAllowed ty = false) :
    markReminderSent db p ty now = .ok db ∨
      markReminderSent db p ty now = .error .checkViolation := by
  unfold markReminderSent
  cases getByPlankaId db p with
  | none => exact Or.inl rfl
  | some t => simp [h]

/-- The overdue mark always aborts when the task exists, because the type
overdue is outside the CHECK set of the schema. -/
theorem markOverdueReminderSent_state (db : Db) (p : String) (now : Int) :
    markOverdueReminderSent db p now = .ok db ∨
      markOverdueReminderSent db p now = .error .checkViolation := by
  unfold markOverdueReminderSent
  cases getByPlankaId db p with
  | none => exact Or.inl rfl
  | some t =>
      have h : reminderTypeAllowed "overdue" = false := by decide
      simp [h]

/-- One window-pass step leaves the database untouched whenever the window
key is outside the CHECK set. -/
theorem sweepWindowTask_state (now : Int) (wkey : String) (st : SweepSt) (t : Task)
    (hw : reminderTypeAllowed wkey = false) :
    (runState (sweepWindowTask now wkey st t)).1 = st.1 := by
  unfold sweepWindowTask
  split
  · rfl
  · split
    · rfl
    · rcases markReminderSent_notAllowed st.1 t.plankaCardId wkey now hw with h | h <;>
        simp [h, runState]

/-- One overdue step leaves the database untouched. -/
theorem sweepOverdueTask_state (now : Int) (st : SweepSt) (t : Task) :
    (runState (sweepOverdueTask now st t)).1 = st.1 := by
  unfold sweepOverdueTask
  split
  · rcases markOverdueReminderSent_state st.1 t.plankaCardId now with h | h <;>
      simp [h, runState]
  · rfl

/-- All three configured window keys are outside the CHECK set. -/
theorem windows_not_allowed (w : String × Nat) (hw : w ∈ REMINDER_WINDOWS) :
    reminderTypeAllowed w.1 = false := by
  simp only [REMINDER_WINDOWS, List.mem_cons, List.not_mem_nil, or_false] at hw
  rcases hw with rfl | rfl | rfl <;> decide

/-- One whole window pass leaves the database untouched. -/
theorem sweepOneWindow_state (now : Int) (st : SweepSt) (w : String × Nat)
    (hw : w ∈ REMINDER_WINDOWS) :
    (runState (sweepOneWindow now st w)).1 = st.1 := by
  unfold sweepOneWindow
  refine foldAbort_inv (fun s => s.1 = st.1) (sweepWindowTask now w.1)
    (getUpcomingDeadlines st.1 now w.2) st ?_ rfl
  intro s t _ h
  rw [sweepWindowTask_state now w.1 s t (windows_not_allowed w hw)]
  exact h

/-- The sweep writes nothing at all: every ledger statement it issues is
rejected by the CHECK constraint of the reminders table, so sendReminders
returns the database it was given. -/
theorem sendReminders_state (db : Db) (now : Int) : (sendReminders db now).1 = db := by
  have hQ : (runState (foldAbort (sweepOneWindow now) ((db, []) : SweepSt) REMINDER_WINDOWS)).1
      = db := by
    refine foldAbort_inv (fun s => s.1 = db) (sweepOneWindow now) REMINDER_WINDOWS
      ((db, []) : SweepSt) ?_ rfl
    intro s w hw h
    rw [sweepOneWindow_state now s w hw]
    exact h
  unfold sendReminders
  cases hE : foldAbort (sweepOneWindow now) ((db, []) : SweepSt) REMINDER_WINDOWS with
  | error st =>
      rw [hE] at hQ
      simp only [hE]
      simpa [runState] using hQ
  | ok st =>
      rw [hE] at hQ
      simp only [runState] at hQ
      simp only [hE]
      refine foldAbort_inv (fun s => s.1 = db) (sweepOverdueTask now)
        (getOverdueTasks st.1 now) st ?_ hQ
      intro s t _ h
      rw [sweepOverdueTask_state now s t]
      exact h

/-- The window-type vocabulary of the specification. -/
def claimedWindowTypes : List String := ["24h", "6h", "2h", "overdue"]

/-- Two ledger rows carry the same composite (task, recipient, window) key. -/
def sameKey (r r' : ReminderRow) : Prop :=
  r.taskId = r'.taskId ∧ r.userId = r'.userId ∧ r.type = r'.type

/-- All ledger rows carry a window type of the specification vocabulary. -/
def ledgerTypesOk (rs : List ReminderRow) : Prop :=
  ∀ r ∈ rs, r.type ∈ claimedWindowTypes

/-- No two ledger rows share a composite key. -/
def ledgerKeyUnique (rs : List ReminderRow) : Prop :=
  List.Pairwise (fun r r' => ¬ sameKey r r') rs

/-- Both ledger invariants together. -/
def ledgerInv (rs : List ReminderRow) : Prop :=
  ledgerTypesOk rs ∧ ledgerKeyUnique rs

/-- A type accepted by the CHECK constraint is in the specification set. -/
theorem reminderTypeAllowed_claimed (ty : String)
    (h : reminderTypeAllowed ty = true) : ty ∈ claimedWindowTypes := by
  unfold reminderTypeAllowed at h
  simp only [Bool.or_eq_true, beq_iff_eq] at h
  rcases h with (rfl | rfl) | rfl <;> simp [claimedWindowTypes]

/-- Rows of an upsert carry either a type already present or the new type. -/
theorem upsertReminder_types (rs : List ReminderRow) (tid uid : Nat) (ty : String)
    (now : Int) :
    ∀ r ∈ upsertReminder rs tid uid ty now,
      (∃ r₀ ∈ rs, r.type = r₀.type) ∨ r.type = ty := by
  intro r hr
  unfold upsertReminder at hr
  split at hr
  · rcases List.mem_map.1 hr with ⟨r₀, hr₀, rfl⟩
    exact Or.inl ⟨r₀, hr₀, by by_cases h : reminderKeyMatches r₀ tid uid ty = true <;> simp [h]⟩
  · rcases List.mem_append.1 hr with h | h
    · exact Or.inl ⟨r, h, rfl⟩
    · simp only [List.mem_singleton] at h
      subst h
      exact Or.inr rfl

/-- A failed key probe means no row of the list carries that key. -/
theorem not_any_keyMatches {rs : List ReminderRow} {tid uid : Nat} {ty : String}
    (h : rs.any (fun r => reminderKeyMatches r tid uid ty) = false) :
    ∀ r ∈ rs, ¬ sameKey r ⟨tid, uid, ty, none⟩ := by
  intro r hr hk
  rcases hk with ⟨h1, h2, h3⟩
  have := List.any_eq_false.1 h r hr
  simp [reminderKeyMatches, h1, h2, h3] at this

/-- sameKey only looks at the key fields, which a sent_at update keeps. -/
theorem sameKey_update (a b : ReminderRow) (tid uid : Nat) (ty : String) (now : Int) :
    sameKey (if reminderKeyMatches a tid uid ty then { a with sentAt := some now } else a)
        (if reminderKeyMatches b tid uid ty then { b with sentAt := some now } else b) ↔
      sameKey a b := by
  by_cases ha : reminderKeyMatches a tid uid ty = true <;>
    by_cases hb : reminderKeyMatches b tid uid ty = true <;>
      simp [ha, hb, sameKey]

/-- An upsert never duplicates a composite key. -/
theorem upsertReminder_keyUnique (rs : List ReminderRow) (tid uid : Nat) (ty : String)
    (now : Int) (h : ledgerKeyUnique rs) :
    ledgerKeyUnique (upsertReminder rs tid uid ty now) := by
  unfold upsertReminder
  split
  · refine List.pairwise_map.2 ?_
    refine h.imp ?_
    intro a b hab
    rw [sameKey_update a b tid uid ty now]
    exact hab
  · rename_i hany
    rw [ledgerKeyUnique, List.pairwise_append]
    refine ⟨h, List.pairwise_singleton _ _, ?_⟩
    intro a ha b hb
    simp only [List.mem_singleton] at hb
    subst hb
    intro hk
    exact not_any_keyMatches (Bool.eq_false_iff.2 (fun hc => by
      rw [hc] at hany; exact absurd hany (by simp))) a ha
      ⟨hk.1, hk.2.1, hk.2.2⟩

/-- Rows of a replace carry either a type already present or the new type. -/
theorem replaceReminder_types (rs : List ReminderRow) (tid uid : Nat) (ty : String)
    (now : Int) :
    ∀ r ∈ replaceReminder rs tid uid ty now,
      (∃ r₀ ∈ rs, r.type = r₀.type) ∨ r.type = ty := by
  intro r hr
  unfold replaceReminder at hr
  rcases List.mem_append.1 hr with h | h
  · exact Or.inl ⟨r, List.mem_of_mem_filter h, rfl⟩
  · simp only [List.mem_singleton] at h
    subst h
    exact Or.inr rfl

/-- A replace never duplicates a composite key. -/
theorem replaceReminder_keyUnique (rs : List ReminderRow) (tid uid : Nat) (ty : String)
    (now : Int) (h : ledgerKeyUnique rs) :
    ledgerKeyUnique (replaceReminder rs tid uid ty now) := by
  unfold replaceReminder
  rw [ledgerKeyUnique, List.pairwise_append]
  refine ⟨h.filter _, List.pairwise_singleton _ _, ?_⟩
  intro a ha b hb
  simp only [List.mem_singleton] at hb
  subst hb
  intro hk
  have hpa := List.of_mem_filter ha
  simp only [Bool.not_eq_eq_eq_not, Bool.not_true] at hpa
  rcases hk with ⟨h1, h2, h3⟩
  simp [reminderKeyMatches, h1, h2, h3] at hpa

/-- A user, a task due five hours after time zero, created by that user. -/
def dbC1 : Db :=
  ⟨[⟨1, .employee⟩], [⟨1, "card1", "t1", .todo, 1, none, some 18000000⟩], [], []⟩

/-- C1: the claimed send-once guarantee does not hold on the code.  The
sweep tries to record the send under the window key FIRST, which the
CHECK constraint of the reminders table rejects, so the ledger stays
empty and a later sweep invocation at the same (or a later) time sends
the very same (task, recipient, window) notification again. -/
theorem C1_resends_after_successful_send :
    (sendReminders dbC1 0).2 = [⟨1, "card1", "FIRST"⟩] ∧
    (sendReminders dbC1 0).1.reminders = [] ∧
    (sendReminders ((sendReminders dbC1 0).1) 300000).2 = [⟨1, "card1", "FIRST"⟩] := by
  decide

/-- Creator 1 and assignee 2, task due five hours after time zero. -/
def dbC2 : Db :=
  ⟨[⟨1, .employee⟩, ⟨2, .employee⟩],
   [⟨1, "card2", "t2", .todo, 1, some 2, some 18000000⟩], [], []⟩

/-- C2: on a task due in five hours the sweep does notify creator and
assignee once each, but under the FIRST (24-hour) window key, because
the 24-hour query horizon already covers a five-hour deadline, and it
leaves the ledger empty: the insert of the single creator-keyed row is
rejected by the CHECK constraint, so no ledger row carries a sent mark
(the claim expects the 6h window and two rows with sentAt set). -/
theorem C2_six_hour_example :
    (sendReminders dbC2 0).2 = [⟨1, "card2", "FIRST"⟩, ⟨2, "card2", "FIRST"⟩] ∧
    (sendReminders dbC2 0).1.reminders = [] := by
  decide

/-- C3: every row a ledger statement can actually write carries a window
type of the specification set, and the composite (task, recipient,
window) key stays unique under the ledger upsert and replace statements
and under whole sweep invocations. -/
theorem C3_ledger_invariant (db : Db) (p ty : String) (now : Int) :
    (∀ db', markReminderSent db p ty now = .ok db' →
        ledgerInv db.reminders → ledgerInv db'.reminders) ∧
    (∀ db', markOverdueReminderSent db p now = .ok db' →
        ledgerInv db.reminders → ledgerInv db'.reminders) ∧
    (ledgerInv db.reminders → ledgerInv (sendReminders db now).1.reminders) := by
  refine ⟨?_, ?_, ?_⟩
  · intro db' hok hinv
    unfold markReminderSent at hok
    cases hfind : getByPlankaId db p with
    | none =>
        rw [hfind] at hok
        simp only [Except.ok.injEq] at hok
        subst hok
        exact hinv
    | some t =>
        rw [hfind] at hok
        by_cases hty : reminderTypeAllowed ty = true
        · simp only [hty, if_true] at hok
          simp only [Except.ok.injEq] at hok
          subst hok
          constructor
          · intro r hr
            rcases upsertReminder_types db.reminders t.id t.createdBy ty now r hr with
              ⟨r₀, h₀, he⟩ | he
            · rw [he]; exact hinv.1 r₀ h₀
            · rw [he]; exact reminderTypeAllowed_claimed ty hty
          · exact upsertReminder_keyUnique _ _ _ _ _ hinv.2
        · simp only [Bool.not_eq_true] at hty
          simp [hty] at hok
  · intro db' hok hinv
    rcases markOverdueReminderSent_state db p now with h | h
    · rw [h] at hok
      simp only [Except.ok.injEq] at hok
      subst hok
      exact hinv
    · rw [h] at hok
      exact absurd hok (by simp)
  · intro hinv
    rw [sendReminders_state db now]
    exact hinv

/-- Database for the C3 witness. -/
def dbC3 : Db :=
  ⟨[⟨1, .employee⟩], [⟨1, "card3", "t3", .todo, 1, none, some 0⟩], [], []⟩

/-- Witness for C3: a successful 24h upsert on a concrete empty ledger
produces a ledger satisfying both invariants. -/
theorem C3_ledger_invariant_witness :
    ledgerInv ({ dbC3 with reminders := [⟨1, 1, "24h", some 5⟩] } : Db).reminders :=
  (C3_ledger_invariant dbC3 "card3" "24h" 5).1
    { dbC3 with reminders := [⟨1, 1, "24h", some 5⟩] }
    (by rfl)
    ⟨fun r hr => absurd hr (List.not_mem_nil r), List.Pairwise.nil⟩

/-- One task already one hour overdue at time 3600000. -/
def dbC6 : Db :=
  ⟨[⟨1, .employee⟩], [⟨1, "card6", "t6", .todo, 1, none, some 0⟩], [], []⟩

/-- C6: the once-per-24-hours overdue throttle does not hold on the code.
The overdue ledger insert uses type overdue, which the CHECK constraint
of the reminders table rejects, so no sent mark is ever stored and a
sweep 23 hours after a successful overdue notification re-notifies the
same recipient (the claim requires silence until 24 hours have passed). -/
theorem C6_overdue_throttle :
    (sendReminders dbC6 3600000).2 = [⟨1, "card6", "overdue"⟩] ∧
    (sendReminders dbC6 3600000).1 = dbC6 ∧
    (sendReminders ((sendReminders dbC6 3600000).1) (3600000 + 23 * 3600000)).2 =
      [⟨1, "card6", "overdue"⟩] := by
  decide

/-- C8: a sweep invocation never mutates the tasks table (in particular no
status field), nor users or settings; only the reminders table is within
its write footprint. -/
theorem C8_sweep_frame (db : Db) (now : Int) :
    (sendReminders db now).1.tasks = db.tasks ∧
    (sendReminders db now).1.users = db.users ∧
    (sendReminders db now).1.settings = db.settings := by
  rw [sendReminders_state db now]
  exact ⟨rfl, rfl, rfl⟩

/-- C4: a status pair outside the adjacency table (with distinct statuses)
makes the transition fail with INVALID_STATUS_TRANSITION, without any
board API call and with the local database, hence the persisted status,
untouched. -/
theorem C4_invalid_transition (env : BoardEnv) (db : Db) (p : String) (uid : Nat)
    (s2 : TaskStatus) (task : Task) (hfind : getByPlankaId db p = some task)
    (hne : task.status ≠ s2) (hnotin : s2 ∉ allowedTransitions task.status) :
    updateTaskStatus env db p s2 uid =
      ⟨db, [], .error .INVALID_STATUS_TRANSITION⟩ := by
  have hbeq : (task.status == s2) = false := by simpa using hne
  have hcont : ((allowedTransitions task.status).contains s2) = false := by
    simpa using hnotin
  unfold updateTaskStatus
  rw [hfind]
  dsimp only
  rw [hbeq, hcont]
  simp

/-- Board environment for concrete transition-engine witnesses. -/
def envW : BoardEnv := ⟨.ok [], fun _ _ => .ok ()⟩

/-- Task and database for the C4 witness: a todo task. -/
def taskC4 : Task := ⟨1, "card4", "t4", .todo, 3, none, none⟩

/-- Database for the C4 witness. -/
def dbC4 : Db := ⟨[⟨3, .employee⟩], [taskC4], [], []⟩

/-- Witness for C4: todo to in_review is outside the table and is refused
without touching anything. -/
theorem C4_invalid_transition_witness :
    updateTaskStatus envW dbC4 "card4" .in_review 3 =
      ⟨dbC4, [], .error .INVALID_STATUS_TRANSITION⟩ :=
  C4_invalid_transition envW dbC4 "card4" 3 .in_review taskC4 (by rfl)
    (by decide) (by decide)

/-- C5: the transition persists locally only after the external update
succeeded.  First conjunct: any thrown error leaves the local database
exactly as before.  Second: whenever the local database changed, the
card update call was made and succeeded.  Third: when no target list
resolves for the status, the transition throws the PLANKA_ERROR class
error and leaves the local database untouched. -/
theorem C5_transactional_persist (env : BoardEnv) (db : Db) (p : String)
    (s : TaskStatus) (uid : Nat) :
    (∀ e, (updateTaskStatus env db p s uid).result = .error e →
        (updateTaskStatus env db p s uid).db = db) ∧
    ((updateTaskStatus env db p s uid).db ≠ db →
        ∃ cid lid, env.cardUpdate cid lid = .ok () ∧
          (updateTaskStatus env db p s uid).calls = [.getLists, .updateCard cid lid]) ∧
    (∀ task lists, getByPlankaId db p = some task → task.status ≠ s →
        s ∈ allowedTransitions task.status → env.boardLists = .ok lists →
        getListForStatus lists s = none →
        (updateTaskStatus env db p s uid).result = .error .PLANKA_ERROR ∧
        (updateTaskStatus env db p s uid).db = db) := by
  unfold updateTaskStatus
  cases hfind : getByPlankaId db p with
  | none =>
      refine ⟨fun e _ => rfl, fun hne => absurd rfl hne, ?_⟩
      intro task lists h1 _ _ _ _
      cases h1
  | some task₀ =>
      dsimp only
      by_cases hss : (task₀.status == s) = true
      · rw [if_pos hss]
        refine ⟨?_, fun hne => absurd rfl hne, ?_⟩
        · intro e he
          simp at he
        · intro task lists h1 hne _ _ _
          cases h1
          exact absurd (by simpa using hss) hne
      · rw [if_neg hss]
        by_cases hcont : ((allowedTransitions task₀.status).contains s) = true
        · have hmem : s ∈ allowedTransitions task₀.status := by simpa using hcont
          rw [if_neg (by simp [hmem])]
          cases hb : env.boardLists with
          | error e =>
              refine ⟨fun e _ => rfl, fun hne => absurd rfl hne, ?_⟩
              intro task lists _ _ _ hbl _
              exact Except.noConfusion hbl
          | ok lists₀ =>
              dsimp only
              cases hgl : getListForStatus lists₀ s with
              | none =>
                  refine ⟨fun e _ => rfl, fun hne => absurd rfl hne, ?_⟩
                  intro task lists _ _ _ hbl _
                  exact ⟨rfl, rfl⟩
              | some tl =>
                  dsimp only
                  cases hcu : env.cardUpdate task₀.plankaCardId tl.id with
                  | error e =>
                      refine ⟨fun e _ => rfl, fun hne => absurd rfl hne, ?_⟩
                      intro task lists _ _ _ hbl hnl
                      injection hbl with hL
                      subst hL
                      rw [hgl] at hnl
                      exact Option.noConfusion hnl
                  | ok u =>
                      cases u
                      dsimp only
                      cases htu : tasksUpdate db task₀.plankaCardId s with
                      | none =>
                          refine ⟨fun e _ => rfl, fun hne => absurd rfl hne, ?_⟩
                          intro task lists _ _ _ hbl hnl
                          injection hbl with hL
                          subst hL
                          rw [hgl] at hnl
                          exact Option.noConfusion hnl
                      | some pr =>
                          obtain ⟨db', task'⟩ := pr
                          refine ⟨?_, ?_, ?_⟩
                          · intro e he
                            simp at he
                          · intro _
                            exact ⟨task₀.plankaCardId, tl.id, hcu, rfl⟩
                          · intro task lists _ _ _ hbl hnl
                            injection hbl with hL
                            subst hL
                            rw [hgl] at hnl
                            exact Option.noConfusion hnl
        · have hnm : s ∉ allowedTransitions task₀.status := by simpa using hcont
          rw [if_pos (by simp [hnm])]
          refine ⟨fun e _ => rfl, fun hne => absurd rfl hne, ?_⟩
          intro task lists h1 _ hmem _ _
          cases h1
          exact absurd hmem hnm

/-- Task and database for the C5 witness. -/
def taskC5 : Task := ⟨1, "card5", "t5", .todo, 1, none, none⟩

/-- Database for the C5 witness. -/
def dbC5 : Db := ⟨[⟨1, .employee⟩], [taskC5], [], []⟩

/-- Board environment whose board has no lists at all, so no target list
can resolve for in_progress. -/
def envC5 : BoardEnv := ⟨.ok [], fun _ _ => .ok ()⟩

/-- Witness for C5: with an empty board the valid transition todo to
in_progress fails with PLANKA_ERROR and leaves the database untouched. -/
theorem C5_transactional_persist_witness :
    (updateTaskStatus envC5 dbC5 "card5" .in_progress 1).result = .error .PLANKA_ERROR ∧
    (updateTaskStatus envC5 dbC5 "card5" .in_progress 1).db = dbC5 :=
  (C5_transactional_persist envC5 dbC5 "card5" .in_progress 1).2.2 taskC5 []
    (by rfl) (by decide) (by decide) (by rfl) (by rfl)

/-- C7: a transition to the current status returns the task unchanged with
no board call and no store write; the database is returned as is. -/
theorem C7_same_status_noop (env : BoardEnv) (db : Db) (p : String) (uid : Nat)
    (task : Task) (hfind : getByPlankaId db p = some task) :
    updateTaskStatus env db p task.status uid =
      ⟨db, [], .ok (task, task.status, uid)⟩ := by
  unfold updateTaskStatus
  rw [hfind]
  simp

/-- Task and database for the C7 witness: a task already done. -/
def taskC7 : Task := ⟨1, "card7", "t7", .done, 4, none, none⟩

/-- Database for the C7 witness. -/
def dbC7 : Db := ⟨[⟨4, .employee⟩], [taskC7], [], []⟩

/-- Witness for C7: the transition of an already done task to done is a
complete no-op. -/
theorem C7_same_status_noop_witness :
    updateTaskStatus envW dbC7 "card7" .done 4 =
      ⟨dbC7, [], .ok (taskC7, .done, 4)⟩ :=
  C7_same_status_noop envW dbC7 "card7" 4 taskC7 (by rfl)

/-- C10: the auto transition on assignment returns null for an unknown task
id instead of throwing, and returns the task unchanged, with no board
call and no store write, when its status is not todo. -/
theorem C10_auto_assign (env : BoardEnv) (db : Db) (p : String) (aid : Nat) :
    (getByPlankaId db p = none →
        autoUpdateStatusOnAssign env db p aid = ⟨db, [], .ok none⟩) ∧
    (∀ task, getByPlankaId db p = some task → task.status ≠ .todo →
        autoUpdateStatusOnAssign env db p aid = ⟨db, [], .ok (some task)⟩) := by
  constructor
  · intro h
    unfold autoUpdateStatusOnAssign
    rw [h]
  · intro task hfind hst
    have hbeq : (task.status == TaskStatus.todo) = false := by simpa using hst
    unfold autoUpdateStatusOnAssign
    rw [hfind]
    simp [hbeq]

/-- Task and database for the C10 witness: a task in review. -/
def taskC10 : Task := ⟨1, "cardA", "tA", .in_review, 6, none, none⟩

/-- Database for the C10 witness. -/
def dbC10 : Db := ⟨[⟨6, .employee⟩], [taskC10], [], []⟩

/-- Witness for C10: an unknown id gives null, and assigning on a task in
review leaves everything unchanged. -/
theorem C10_auto_assign_witness :
    autoUpdateStatusOnAssign envW dbC10 "missing" 6 = ⟨dbC10, [], .ok none⟩ ∧
    autoUpdateStatusOnAssign envW dbC10 "cardA" 6 = ⟨dbC10, [], .ok (some taskC10)⟩ :=
  ⟨(C10_auto_assign envW dbC10 "missing" 6).1 (by rfl),
   (C10_auto_assign envW dbC10 "cardA" 6).2 taskC10 (by rfl) (by decide)⟩

/-- Any morning or evening digest message goes to a user whose settings,
possibly defaulted, enable the digest. -/
theorem digest_send_enabled (db : Db) (kind : DigestKind) :
    ∀ d ∈ sendDailyDigest kind db,
      (getUserSettings db d.userId).digestEnabled = true := by
  intro d hd
  unfold sendDailyDigest at hd
  rcases List.mem_filterMap.1 hd with ⟨u, hu, hfu⟩
  by_cases hen : (getUserSettings db u.telegramId).digestEnabled = true
  · rw [if_neg (by simp [hen])] at hfu
    split at hfu
    · cases hfu
    · cases hgt : getByTelegramId db u.telegramId with
      | none =>
          rw [hgt] at hfu
          cases hfu
      | some _ =>
          rw [hgt] at hfu
          simp only [Option.some.injEq] at hfu
          subst hfu
          exact hen
  · rw [if_pos (by simp [Bool.not_eq_true] at hen; simp [hen])] at hfu
    cases hfu

/-- Database of the C9 counterexample: one registered employee with no
settings row. -/
def dbC9c : Db := ⟨[⟨5, .employee⟩], [], [], []⟩

/-- C9 counterexample: user 5 exists and has no settings row, yet the
morning digest run sends nothing at all, because the run only iterates
owners and admins; the unrestricted claim that a settings-less user is
included in the morning run is false. -/
theorem C9_counterexample :
    dbC9c.settings.find? (fun s => s.userId == 5) = none ∧
    (getByTelegramId dbC9c 5).isSome = true ∧
    sendDailyDigest .morning dbC9c = [] := by
  decide

/-- C9 amended: a user whose settings disable the digest receives zero
morning sends; defaults digestEnabled true and digestHour 9 are
synthesized when no settings row exists; and an owner or admin without a
settings row is therefore included in the morning run. -/
theorem C9_digest_gating (db : Db) :
    (∀ uid, db.settings.find? (fun s => s.userId == uid) = none →
        getUserSettings db uid = ⟨true, 9, true⟩) ∧
    (∀ uid, (getUserSettings db uid).digestEnabled = false →
        ∀ d ∈ sendDailyDigest .morning db, d.userId ≠ uid) ∧
    (∀ u ∈ db.users, (u.role = .owner ∨ u.role = .admin) →
        db.settings.find? (fun s => s.userId == u.telegramId) = none →
        ∃ d ∈ sendDailyDigest .morning db, d.userId = u.telegramId) := by
  refine ⟨?_, ?_, ?_⟩
  · intro uid hnone
    unfold getUserSettings
    rw [hnone]
  · intro uid hdis d hd heq
    have := digest_send_enabled db .morning d hd
    rw [heq] at this
    rw [hdis] at this
    cases this
  · intro u hu hrole hset
    refine ⟨⟨u.telegramId, .morning⟩, ?_, rfl⟩
    unfold sendDailyDigest
    refine List.mem_filterMap.2 ⟨u, ?_, ?_⟩
    · rcases hrole with h | h
      · exact List.mem_append.2 (Or.inl (List.mem_filter.2 ⟨hu, by simp [h]⟩))
      · exact List.mem_append.2 (Or.inr (List.mem_filter.2 ⟨hu, by simp [h]⟩))
    · have hs : getUserSettings db u.telegramId = ⟨true, 9, true⟩ := by
        unfold getUserSettings
        rw [hset]
      rw [if_neg (by simp [hs]), if_neg (by simp [hs])]
      cases hgt : getByTelegramId db u.telegramId with
      | none =>
          have := List.find?_eq_none.1 hgt u hu
          simp at this
      | some _ => rfl

/-- Database of the C9 witness: one owner with no settings row. -/
def dbC9w : Db := ⟨[⟨7, .owner⟩], [], [], []⟩

/-- Witness for the amended C9: the settings-less owner 7 is included in
the morning run. -/
theorem C9_digest_gating_witness :
    ∃ d ∈ sendDailyDigest .morning dbC9w, d.userId = 7 :=
  (C9_digest_gating dbC9w).2.2 ⟨7, .owner⟩ (by decide) (Or.inl rfl) (by rfl)

end TaskBot
